import Mathlib

/-!
Shallow embedding of the upload-task tracking and event-notification
subsystem of src/packages/background-http/index.android.ts.

The transport engine (net.gotev.uploadservice) is external: its requests are
modelled as plain data and its submission and abort calls are recorded in an
action trace.  The Observable notification channel is modelled as a list of
emitted events: each setter returns the updated task together with the
property-change notifications it emitted, and each native-callback handler
returns the updated registry together with the full emission list.  A callback
handler that dereferences a missing task raises a JavaScript TypeError, which
is modelled with Except.
-/

namespace BackgroundHttp

/-- Model of a JavaScript number as delivered by the native engine for byte
counts: NaN, an infinity, or a finite value.  Byte counts are integral, so
finite values carry an Int. -/
inductive JSNum where
  | nan
  | posInf
  | negInf
  | finite (v : Int)
deriving DecidableEq, Repr

/-- JavaScript truthiness of a number: 0 and NaN are falsy, every other
number including the infinities is truthy. -/
def JSNum.truthy : JSNum → Bool
  | .nan => false
  | .posInf => true
  | .negInf => true
  | .finite v => v != 0

/-- The JavaScript isFinite predicate. -/
def JSNum.finiteB : JSNum → Bool
  | .finite _ => true
  | _ => false

/-- The JavaScript comparison x <= 0 (false on NaN). -/
def JSNum.leZero : JSNum → Bool
  | .nan => false
  | .posInf => false
  | .negInf => true
  | .finite v => v ≤ 0

/-- Lines 59-62 of onProgressReceiverCompleted: the reported total is replaced
by 1 when it is falsy, not finite, or at most zero. -/
def normalizeTotal (t : JSNum) : JSNum :=
  if !t.truthy || !t.finiteB || t.leZero then .finite 1 else t

/-- The transport engine server response.  code = none models a response
object whose getCode member is not a function, the case the source guards
with a typeof check before reading the code. -/
structure ServerResponse where
  bodyString : String
  code : Option Int
deriving DecidableEq, Repr

/-- Line 77 and line 82: the response code read from the server response when
getCode is available, and the sentinel -1 otherwise. -/
def responseCodeOf (response : ServerResponse) : Int :=
  match response.code with
  | some c => c
  | none => -1

/-- The Throwable delivered to the error callback, classified the way the
source classifies it with instanceof: a user-cancellation exception, an
upload error carrying a server response, or anything else. -/
inductive UploadCause where
  | userCancelled
  | uploadError (serverResponse : ServerResponse)
  | other
deriving DecidableEq, Repr

/-- A value carried by a property-change notification. -/
inductive PropValue where
  | num (v : JSNum)
  | str (s : String)
deriving DecidableEq, Repr

/-- One notify emission on a task.  propertyChange is the generic
notification produced by notifyPropertyChanged; the remaining constructors are
the semantic event payloads built by the callback handlers.  errorFull carries
the wrapped underlying error, the responseCode field, and the raw server
response from the upload error; errorBare is the detail-free error event of
the final else branch. -/
inductive Event where
  | propertyChange (propertyName : String) (value : PropValue)
  | progress (currentBytes totalBytes : JSNum)
  | cancelled
  | errorBare
  | errorFull (error : UploadCause) (responseCode : Int) (response : ServerResponse)
  | responded (data : String) (responseCode : Int)
  | complete (responseCode : Int) (response : ServerResponse)
deriving DecidableEq, Repr

/-- Distinguishes the semantic events from the generic property-change
notifications that share the notify channel. -/
def Event.isSemantic : Event → Bool
  | .propertyChange _ _ => false
  | _ => true

/-- The semantic events among an emission list, in emission order. -/
def semanticEvents (evs : List Event) : List Event :=
  evs.filter Event.isSemantic

/-- A session: an id-namespace and factory for tasks. -/
structure Session where
  id : String
deriving DecidableEq, Repr

/-- The session factory function. -/
def session (id : String) : Session :=
  { id := id }

/-- A task: the per-upload observable state holder.  The fields mirror the
private fields of the Task class. -/
structure Task where
  id : String
  session : Session
  upload : JSNum
  totalUpload : JSNum
  status : String
  description : String
deriving DecidableEq, Repr

/-- setTotalUpload: update the field, then emit the property-change
notification. -/
def Task.setTotalUpload (t : Task) (value : JSNum) : Task × List Event :=
  ({ t with totalUpload := value }, [.propertyChange "totalUpload" (.num value)])

/-- setUpload: update the field, then emit the property-change notification. -/
def Task.setUpload (t : Task) (value : JSNum) : Task × List Event :=
  ({ t with upload := value }, [.propertyChange "upload" (.num value)])

/-- setStatus: update the field, then emit the property-change notification. -/
def Task.setStatus (t : Task) (value : String) : Task × List Event :=
  ({ t with status := value }, [.propertyChange "status" (.str value)])

/-- setDescription: update the field, then emit the property-change
notification. -/
def Task.setDescription (t : Task) (value : String) : Task × List Event :=
  ({ t with description := value }, [.propertyChange "description" (.str value)])

/-- The process-wide registry Task.cache: a mapping from task id to task,
modelled as an association list with unique keys. -/
abbrev Registry := List (String × Task)

/-- Reading cache[id]: the first binding of the key, none when absent. -/
def Registry.lookup : Registry → String → Option Task
  | [], _ => none
  | (k, t) :: rest, id => if k = id then some t else Registry.lookup rest id

/-- Writing cache[id] = task: replace the binding when present, append
otherwise. -/
def Registry.insert : Registry → String → Task → Registry
  | [], id, t => [(id, t)]
  | (k, u) :: rest, id, t =>
      if k = id then (id, t) :: rest else (k, u) :: Registry.insert rest id t

/-- Task.fromId, line 215-217: a plain cache read with no guard. -/
def Task.fromId (cache : Registry) (id : String) : Option Task :=
  Registry.lookup cache id

/-- The data read off the native UploadInfo argument of a callback. -/
structure UploadInfo where
  uploadId : String
  totalBytes : JSNum
  uploadedBytes : JSNum
deriving DecidableEq, Repr

/-- A JavaScript runtime fault: the TypeError raised when a member is read
off undefined, or an Error thrown explicitly with a message. -/
inductive JSError where
  | typeError (message : String)
  | jsError (message : String)
deriving DecidableEq, Repr

/-- The fault produced when a callback handler calls a method on the
undefined result of Task.fromId for an unregistered id. -/
def unroutable : JSError :=
  .typeError "Cannot read properties of undefined"

/-- onProgressReceiverProgress, lines 12-26: resolve the task, store the
reported counts, set status uploading, emit a progress event with the
reported counts. -/
def onProgressReceiverProgress (cache : Registry) (info : UploadInfo) :
    Except JSError (Registry × List Event) :=
  match Task.fromId cache info.uploadId with
  | none => .error unroutable
  | some task =>
    let r1 := task.setTotalUpload info.totalBytes
    let r2 := r1.1.setUpload info.uploadedBytes
    let r3 := r2.1.setStatus "uploading"
    .ok (Registry.insert cache info.uploadId r3.1,
         r1.2 ++ r2.2 ++ r3.2 ++ [.progress info.uploadedBytes info.totalBytes])

/-- onProgressReceiverCancelled, lines 28-33: resolve the task, set status
cancelled, emit a cancelled event. -/
def onProgressReceiverCancelled (cache : Registry) (info : UploadInfo) :
    Except JSError (Registry × List Event) :=
  match Task.fromId cache info.uploadId with
  | none => .error unroutable
  | some task =>
    let r1 := task.setStatus "cancelled"
    .ok (Registry.insert cache info.uploadId r1.1, r1.2 ++ [.cancelled])

/-- onProgressReceiverError, lines 35-53: resolve the task, set status error
unconditionally, then branch on the cause: a user-cancellation emits a
cancelled event, an upload error emits an error event with the wrapped error,
the constant responseCode -1 and the server response, and anything else emits
a bare error event. -/
def onProgressReceiverError (cache : Registry) (info : UploadInfo)
    (error : UploadCause) : Except JSError (Registry × List Event) :=
  match Task.fromId cache info.uploadId with
  | none => .error unroutable
  | some task =>
    let r1 := task.setStatus "error"
    let cache1 := Registry.insert cache info.uploadId r1.1
    match error with
    | .userCancelled => .ok (cache1, r1.2 ++ [.cancelled])
    | .uploadError sr => .ok (cache1, r1.2 ++ [.errorFull (.uploadError sr) (-1) sr])
    | .other => .ok (cache1, r1.2 ++ [.errorBare])

/-- onProgressReceiverCompleted, lines 55-85: resolve the task, normalize the
reported total, store it as both the uploaded and the total count, set status
complete, then emit a progress event with the normalized counts, a responded
event with the body string and response code, and a complete event with the
response code and the raw response. -/
def onProgressReceiverCompleted (cache : Registry) (info : UploadInfo)
    (response : ServerResponse) : Except JSError (Registry × List Event) :=
  match Task.fromId cache info.uploadId with
  | none => .error unroutable
  | some task =>
    let totalUpload := normalizeTotal info.totalBytes
    let r1 := task.setUpload totalUpload
    let r2 := r1.1.setTotalUpload totalUpload
    let r3 := r2.1.setStatus "complete"
    .ok (Registry.insert cache info.uploadId r3.1,
         r1.2 ++ r2.2 ++ r3.2 ++
           [.progress totalUpload totalUpload,
            .responded response.bodyString (responseCodeOf response),
            .complete (responseCodeOf response) response])

/-- Modelled from the spec: the cross-platform common.Request options record,
whose declaration lives in the shared index module that is not part of this
source tree.  The fields are exactly the ones the Android implementation
reads; none models an absent field. -/
structure Request where
  url : String
  method : Option String
  headers : Option (List (String × Option String))
  description : String
  androidAutoDeleteAfterUpload : Option Bool
  androidMaxRetries : Option Int
deriving DecidableEq, Repr

/-- The native upload request under construction (binary or multipart):
only the state this wrapper sets on it.  method is none until setMethod is
called. -/
structure UploadRequest where
  url : String
  fileToUpload : Option String
  parameters : List (String × String)
  filesToUpload : List (String × String × String × Option String)
  headers : List (String × String)
  maxRetries : Option Int
  autoDeleteAfterUpload : Bool
  method : Option String
deriving DecidableEq, Repr

/-- A freshly constructed native request for a URL. -/
def UploadRequest.new (url : String) : UploadRequest :=
  { url := url, fileToUpload := none, parameters := [], filesToUpload := [],
    headers := [], maxRetries := none, autoDeleteAfterUpload := false,
    method := none }

/-- Line 319: an absent or empty method string is falsy and falls back to
GET. -/
def methodOrGet : Option String → String
  | none => "GET"
  | some m => if m = "" then "GET" else m

/-- Lines 310-317: add every header whose value is neither null nor
undefined. -/
def addHeaders (r : UploadRequest) : List (String × Option String) → UploadRequest
  | [] => r
  | (name, value) :: rest =>
    match value with
    | none => addHeaders r rest
    | some v => addHeaders { r with headers := r.headers ++ [(name, v)] } rest

/-- setRequestOptions, lines 300-319: auto-delete flag, max retries when the
option is a nonzero number, headers, and finally the method. -/
def setRequestOptions (request : UploadRequest) (options : Request) : UploadRequest :=
  let autoDeleteAfterUpload := options.androidAutoDeleteAfterUpload.getD false
  let r1 :=
    if autoDeleteAfterUpload then
      { request with autoDeleteAfterUpload := true }
    else request
  let r2 :=
    match options.androidMaxRetries with
    | some n => if n ≠ 0 then { r1 with maxRetries := some n } else r1
    | none => r1
  let r3 :=
    match options.headers with
    | some hs => addHeaders r2 hs
    | none => r2
  { r3 with method := some (methodOrGet options.method) }

/-- getBinaryRequest, lines 263-270.  The taskId parameter is unused, as in
the source. -/
def getBinaryRequest (_taskId : String) (options : Request) (file : String) :
    UploadRequest :=
  setRequestOptions { UploadRequest.new options.url with fileToUpload := some file }
    options

/-- One element of the params array passed to multipartUpload: a plain field
or a file field.  none models an absent property. -/
structure Part where
  name : Option String
  value : Option String
  filename : Option String
  destFilename : Option String
  mimeType : Option String
deriving DecidableEq, Repr

/-- The substring after the last slash: the default destination file name. -/
def basename (s : String) : String :=
  (s.splitOn "/").getLastD s

/-- Line 287-289: a file name starting with the app-relative marker is
expanded against the application folder path. -/
def expandFileName (appPath : String) (fileName : String) : String :=
  if fileName.startsWith "~/" then appPath ++ "/" ++ fileName.drop 2 else fileName

/-- The loop body of getMultipartRequest, lines 275-292: a part without a
name throws the validation error; a part without a filename is a plain
parameter (reading toString off an undefined value raises a TypeError); a
file part resolves its file name and destination name and is added to the
files list. -/
def addParts (appPath : String) (request : UploadRequest) :
    List Part → Except JSError UploadRequest
  | [] => .ok request
  | p :: rest =>
    match p.name with
    | none => .error (.jsError "You must have a `name` value")
    | some name =>
      match p.filename with
      | none =>
        match p.value with
        | none => .error (.typeError "Cannot read properties of undefined")
        | some v =>
          addParts appPath
            { request with parameters := request.parameters ++ [(name, v)] } rest
      | some filename =>
        let fileName := expandFileName appPath filename
        let destFileName :=
          match p.destFilename with
          | some d => if d = "" then basename fileName else d
          | none => basename fileName
        addParts appPath
          { request with
              filesToUpload :=
                request.filesToUpload ++ [(fileName, name, destFileName, p.mimeType)] }
          rest

/-- getMultipartRequest, lines 272-298: build the request by adding every
part, then apply the request options.  appPath stands for the application
folder path used to expand app-relative file names.  The taskId parameter is
unused, as in the source. -/
def getMultipartRequest (_taskId : String) (options : Request) (params : List Part)
    (appPath : String) : Except JSError UploadRequest :=
  match addParts appPath (UploadRequest.new options.url) params with
  | .error e => .error e
  | .ok r => .ok (setRequestOptions r options)

/-- An externally visible action of the core: submitting a request to the
transport engine (startUpload), registering a task in the cache, or asking
the engine to abort an upload (stopUpload). -/
inductive Action where
  | submit (taskId : String) (request : UploadRequest)
  | register (taskId : String)
  | abort (taskId : String)
deriving DecidableEq, Repr

/-- The module-level mutable state: the static taskCount counter and the
static cache of the Task class. -/
structure GlobalState where
  taskCount : Nat
  cache : Registry
deriving DecidableEq, Repr

/-- The state at module load: counter zero, empty cache. -/
def initialState : GlobalState :=
  { taskCount := 0, cache := [] }

/-- Line 179 and line 193: the task id built from the session id and the
pre-incremented counter, the counter value between braces. -/
def makeTaskId (sessionId : String) (count : Nat) : String :=
  sessionId ++ "\x7b" ++ toString count ++ "\x7d"

/-- initTask, lines 202-213: a new task for the given id and session, with
description from the options, zero uploaded bytes, total one, status pending.
In the source the fields of a new Task are undefined until the setters below
run; every field is assigned before the task escapes, so the placeholder
initial values of task0 are unobservable.  The emission list collects the
property-change notifications of the four setters in order. -/
def Task.initTask (taskId : String) (session : Session) (options : Request) :
    Task × List Event :=
  let task0 : Task :=
    { id := taskId, session := session, upload := .nan, totalUpload := .nan,
      status := "", description := "" }
  let r1 := task0.setDescription options.description
  let r2 := r1.1.setUpload (.finite 0)
  let r3 := r2.1.setTotalUpload (.finite 1)
  let r4 := r3.1.setStatus "pending"
  (r4.1, r1.2 ++ r2.2 ++ r3.2 ++ r4.2)

/-- The result of Task.create: the new global state, the trace of engine
submissions and cache registrations in program order, the notifications
emitted while initializing the task, and the returned task. -/
structure CreateResult where
  state : GlobalState
  trace : List Action
  events : List Event
  task : Task

/-- The result of Task.createMultiPart; outcome is the returned task or the
error thrown to the caller. -/
structure MultiPartResult where
  state : GlobalState
  trace : List Action
  events : List Event
  outcome : Except JSError Task

/-- Task.create, lines 176-188: increment the counter, build the task id and
the binary request, init the task, start the upload, then register the task
in the cache.  ensureUploadServiceNamespace and ensureReceiver only touch the
native registration plumbing, which the spec places out of scope; they do not
affect the counter, the cache, or the task. -/
def Task.create (st : GlobalState) (session : Session) (file : String)
    (options : Request) : CreateResult :=
  let taskCount := st.taskCount + 1
  let taskId := makeTaskId session.id taskCount
  let request := getBinaryRequest taskId options file
  let r := Task.initTask taskId session options
  { state := { taskCount := taskCount, cache := Registry.insert st.cache taskId r.1 },
    trace := [.submit taskId request, .register taskId],
    events := r.2,
    task := r.1 }

/-- Task.createMultiPart, lines 190-200: increment the counter, build the
task id, build the multipart request (which may throw before the task is
created), init the task, start the upload, then register the task in the
cache.  When the request builder throws, the error propagates to the caller
with the counter already incremented, no submission and no registration. -/
def Task.createMultiPart (st : GlobalState) (session : Session) (params : List Part)
    (options : Request) (appPath : String) : MultiPartResult :=
  let taskCount := st.taskCount + 1
  let taskId := makeTaskId session.id taskCount
  match getMultipartRequest taskId options params appPath with
  | .error e =>
    { state := { taskCount := taskCount, cache := st.cache },
      trace := [], events := [], outcome := .error e }
  | .ok request =>
    let r := Task.initTask taskId session options
    { state := { taskCount := taskCount, cache := Registry.insert st.cache taskId r.1 },
      trace := [.submit taskId request, .register taskId],
      events := r.2,
      outcome := .ok r.1 }

/-- Session.uploadFile, lines 151-153: delegate to Task.create. -/
def Session.uploadFile (s : Session) (st : GlobalState) (fileUri : String)
    (options : Request) : CreateResult :=
  Task.create st s fileUri options

/-- Session.multipartUpload, lines 155-157: delegate to Task.createMultiPart. -/
def Session.multipartUpload (s : Session) (st : GlobalState) (params : List Part)
    (options : Request) (appPath : String) : MultiPartResult :=
  Task.createMultiPart st s params options appPath

/-- Task.cancel, lines 258-260: ask the transport engine to stop the upload
with this task id.  No field of the task, no cache entry and no counter is
touched, and nothing is emitted. -/
def Task.cancel (st : GlobalState) (t : Task) : GlobalState × List Action × List Event :=
  (st, [.abort t.id], [])

/-- The methods of the requests submitted to the transport engine along a
trace, in submission order. -/
def submittedMethods (trace : List Action) : List (Option String) :=
  trace.filterMap fun a =>
    match a with
    | .submit _ r => some r.method
    | _ => none

/-- Formalization of the registration-order wording of the spec: in the
action trace, the registration of the given task id occurs strictly before
its submission to the transport engine. -/
def registerPrecedesSubmit (taskId : String) : List Action → Bool
  | [] => false
  | .register t :: rest =>
      if t = taskId then true else registerPrecedesSubmit taskId rest
  | .submit t _ :: rest =>
      if t = taskId then false else registerPrecedesSubmit taskId rest
  | .abort _ :: rest => registerPrecedesSubmit taskId rest

/-! Concrete fixtures used by the witnesses and counterexamples. -/

/-- The session of the first scenario of the spec. -/
def sessionS1 : Session := session "s1"

/-- A request options record with every optional field absent. -/
def optionsNone : Request :=
  { url := "https://example.test/upload", method := none, headers := none,
    description := "demo", androidAutoDeleteAfterUpload := none,
    androidMaxRetries := none }

/-- The id of the first task created in a fresh process for session s1. -/
def taskId1 : String := makeTaskId "s1" 1

/-- The first task created in a fresh process for session s1. -/
def task1 : Task :=
  (Task.initTask taskId1 sessionS1 optionsNone).1

/-- A cache holding exactly task1. -/
def cache1 : Registry := [(taskId1, task1)]

/-- An upload-info tuple addressing task1. -/
def info1 : UploadInfo :=
  { uploadId := taskId1, totalBytes := .finite 10, uploadedBytes := .finite 5 }

/-- An upload-info tuple addressing an id no task was registered for. -/
def infoUnknown : UploadInfo :=
  { uploadId := "unknown", totalBytes := .finite 10, uploadedBytes := .finite 5 }

/-- A server response carrying an obtainable HTTP code 500. -/
def sr500 : ServerResponse :=
  { bodyString := "Internal Server Error", code := some 500 }

/-- A multipart part with no name property. -/
def partNoName : Part :=
  { name := none, value := some "v", filename := none, destFilename := none,
    mimeType := none }

/-- The multipart request built for an empty parts list with the default
options. -/
def mpRequest1 : UploadRequest :=
  setRequestOptions (UploadRequest.new optionsNone.url) optionsNone

/-! Helper lemmas. -/

/-- Reading back the key just written into the cache yields the task just
written. -/
theorem Registry.lookup_insert (r : Registry) (id : String) (t : Task) :
    Registry.lookup (Registry.insert r id t) id = some t := by
  induction r with
  | nil => simp [Registry.insert, Registry.lookup]
  | cons head tail ih =>
      obtain ⟨k, u⟩ := head
      by_cases h : k = id
      · simp [Registry.insert, Registry.lookup, h]
      · simp [Registry.insert, Registry.lookup, h, ih]

/-- When some part of the list has no name, the multipart loop throws. -/
theorem addParts_missing_name (appPath : String) (request : UploadRequest)
    (params : List Part) (h : ∃ p ∈ params, p.name = none) :
    ∃ e, addParts appPath request params = Except.error e := by
  induction params generalizing request with
  | nil => simp at h
  | cons p rest ih =>
      obtain ⟨q, hq, hname⟩ := h
      rcases List.mem_cons.mp hq with hq | hq
      · subst hq
        exact ⟨.jsError "You must have a `name` value", by simp [addParts, hname]⟩
      · cases hn : p.name with
        | none => exact ⟨.jsError "You must have a `name` value", by simp [addParts, hn]⟩
        | some name =>
            cases hf : p.filename with
            | none =>
                cases hv : p.value with
                | none =>
                    exact ⟨.typeError "Cannot read properties of undefined",
                      by simp [addParts, hn, hf, hv]⟩
                | some v =>
                    obtain ⟨e, he⟩ :=
                      ih { request with parameters := request.parameters ++ [(name, v)] }
                        ⟨q, hq, hname⟩
                    exact ⟨e, by simp [addParts, hn, hf, hv, he]⟩
            | some filename =>
                obtain ⟨e, he⟩ :=
                  ih { request with
                        filesToUpload := request.filesToUpload ++
                          [(expandFileName appPath filename, name,
                            match p.destFilename with
                            | some d =>
                                if d = "" then basename (expandFileName appPath filename)
                                else d
                            | none => basename (expandFileName appPath filename),
                            p.mimeType)] }
                    ⟨q, hq, hname⟩
                exact ⟨e, by simp [addParts, hn, hf, he]⟩

/-- The method set on a request by setRequestOptions is the method of the
options, defaulted to GET. -/
theorem setRequestOptions_method (r : UploadRequest) (options : Request) :
    (setRequestOptions r options).method = some (methodOrGet options.method) := rfl

/-- Full characterization of the success-path total normalization: the result
is a finite value of at least one, it is the reported total whenever that
total is finite and positive, and it is one whenever the reported total is
not a positive finite value. -/
theorem normalizeTotal_spec (t : JSNum) :
    (∃ v : Int, normalizeTotal t = .finite v ∧ 1 ≤ v)
      ∧ (∀ v : Int, t = .finite v → 0 < v → normalizeTotal t = t)
      ∧ ((∀ v : Int, t = .finite v → v ≤ 0) → normalizeTotal t = .finite 1) := by
  cases t with
  | nan =>
      refine ⟨⟨1, ?_, le_refl 1⟩, ?_, ?_⟩ <;>
        simp [normalizeTotal, JSNum.truthy, JSNum.finiteB, JSNum.leZero]
  | posInf =>
      refine ⟨⟨1, ?_, le_refl 1⟩, ?_, ?_⟩ <;>
        simp [normalizeTotal, JSNum.truthy, JSNum.finiteB, JSNum.leZero]
  | negInf =>
      refine ⟨⟨1, ?_, le_refl 1⟩, ?_, ?_⟩ <;>
        simp [normalizeTotal, JSNum.truthy, JSNum.finiteB, JSNum.leZero]
  | finite v =>
      by_cases hv : v ≤ 0
      · have h1 : normalizeTotal (.finite v) = .finite 1 := by
          simp [normalizeTotal, JSNum.truthy, JSNum.finiteB, JSNum.leZero, hv]
        refine ⟨⟨1, h1, le_refl 1⟩, ?_, fun _ => h1⟩
        intro w hw hpos
        injection hw with hvw
        omega
      · have hne : v ≠ 0 := by omega
        have h1 : normalizeTotal (.finite v) = .finite v := by
          simp [normalizeTotal, JSNum.truthy, JSNum.finiteB, JSNum.leZero, hv, hne]
        refine ⟨⟨v, h1, by omega⟩, fun w hw hpos => h1, ?_⟩
        intro hall
        have := hall v rfl
        omega

/-! Claim theorems. -/

/-- C1: the claim states that an error callback reporting a user-cancellation
cause leaves the task with status cancelled.  The handler emits exactly one
cancelled event and no error event, as claimed, but it sets the status to
error before branching on the cause, so the task ends with status error, not
cancelled.  Evaluated here at the registered task task1. -/
theorem c1_userCancel_status_error :
    (onProgressReceiverError cache1 info1 .userCancelled).map
        (fun p => ((Registry.lookup p.1 taskId1).map Task.status, semanticEvents p.2))
      = .ok (some "error", [.cancelled]) := by
  rfl

/-- C2 counterexample: for the first upload of session s1 in a fresh process,
the action trace of Task.create submits the request to the transport engine
first and registers the task in the cache second, so registration does not
precede submission as the claim states. -/
theorem c2_counterexample :
    registerPrecedesSubmit taskId1
        (Task.create initialState sessionS1 "file.bin" optionsNone).trace = false
      ∧ (Task.create initialState sessionS1 "file.bin" optionsNone).trace
          = [.submit taskId1 (getBinaryRequest taskId1 optionsNone "file.bin"),
             .register taskId1] :=
  ⟨rfl, rfl⟩

/-- C2 (amended): for every call to Task.create and Task.createMultiPart, the
newly created task is inserted into the cache immediately after the upload
request is submitted to the transport engine, within the same synchronous
call, and on return the new task id resolves in the cache to the returned
task. -/
theorem c2_amended_registration (st : GlobalState) (s : Session) (file : String)
    (options : Request) (params : List Part) (appPath : String) :
    ((Task.create st s file options).trace
        = [.submit (makeTaskId s.id (st.taskCount + 1))
             (getBinaryRequest (makeTaskId s.id (st.taskCount + 1)) options file),
           .register (makeTaskId s.id (st.taskCount + 1))]
      ∧ Registry.lookup (Task.create st s file options).state.cache
            (makeTaskId s.id (st.taskCount + 1))
          = some (Task.create st s file options).task)
    ∧ (∀ t req,
        (Task.createMultiPart st s params options appPath).outcome = .ok t →
        getMultipartRequest (makeTaskId s.id (st.taskCount + 1)) options params appPath
            = .ok req →
        (Task.createMultiPart st s params options appPath).trace
            = [.submit (makeTaskId s.id (st.taskCount + 1)) req,
               .register (makeTaskId s.id (st.taskCount + 1))]
          ∧ Registry.lookup (Task.createMultiPart st s params options appPath).state.cache
                (makeTaskId s.id (st.taskCount + 1))
              = some t) := by
  constructor
  · exact ⟨rfl, Registry.lookup_insert _ _ _⟩
  · intro t req hout hreq
    simp only [Task.createMultiPart, hreq] at hout ⊢
    simp only [Except.ok.injEq] at hout
    subst hout
    exact ⟨trivial, Registry.lookup_insert _ _ _⟩

/-- C2 witness: the amended registration behavior at concrete inputs, for the
multipart factory with an empty parts list. -/
theorem c2_amended_registration_witness :
    (Task.createMultiPart initialState sessionS1 [] optionsNone "/data/app").trace
        = [.submit taskId1 mpRequest1, .register taskId1]
      ∧ Registry.lookup
            (Task.createMultiPart initialState sessionS1 [] optionsNone "/data/app").state.cache
            taskId1
          = some task1 :=
  (c2_amended_registration initialState sessionS1 "file.bin" optionsNone [] "/data/app").2
    task1 mpRequest1 rfl rfl

/-- C3 counterexample: an error callback whose upload error carries a server
response with obtainable HTTP code 500 still emits the error event with
responseCode -1, so the sentinel is not reserved for the unobtainable case as
the claim states. -/
theorem c3_counterexample :
    (onProgressReceiverError cache1 info1 (.uploadError sr500)).map
        (fun p => semanticEvents p.2)
      = .ok [.errorFull (.uploadError sr500) (-1) sr500]
      ∧ responseCodeOf sr500 = 500
      ∧ ((-1 : Int) == 500) = false := by
  refine ⟨rfl, rfl, rfl⟩

/-- C3 (amended): for every error callback whose cause is an upload-protocol
error on a registered task, the emitted error event carries the underlying
error object and the raw server response, and always the constant sentinel
responseCode -1, even when an HTTP response code is obtainable from the
server response. -/
theorem c3_amended_error_payload (cache : Registry) (id : String) (task : Task)
    (tb ub : JSNum) (sr : ServerResponse)
    (h : Registry.lookup cache id = some task) :
    (onProgressReceiverError cache
          { uploadId := id, totalBytes := tb, uploadedBytes := ub }
          (.uploadError sr)).map (fun p => semanticEvents p.2)
      = .ok [.errorFull (.uploadError sr) (-1) sr] := by
  simp [onProgressReceiverError, Task.fromId, h, Except.map, semanticEvents,
        Event.isSemantic, Task.setStatus]

/-- C3 witness: the amended error payload at the concrete registered task and
a response with code 500. -/
theorem c3_amended_error_payload_witness :
    (onProgressReceiverError cache1 info1 (.uploadError sr500)).map
        (fun p => semanticEvents p.2)
      = .ok [.errorFull (.uploadError sr500) (-1) sr500] :=
  c3_amended_error_payload cache1 taskId1 task1 (.finite 10) (.finite 5) sr500 rfl

/-- C4: the claim states that a callback whose id resolves to no registered
task is logged and ignored defensively with no exception.  In the source,
Task.fromId returns undefined and each handler immediately calls a method on
it, so all four handlers raise a TypeError that propagates out of the
callback.  Evaluated here at an id registered in no cache. -/
theorem c4_unroutable_throws :
    onProgressReceiverProgress cache1 infoUnknown = .error unroutable
      ∧ onProgressReceiverCancelled cache1 infoUnknown = .error unroutable
      ∧ onProgressReceiverError cache1 infoUnknown .userCancelled = .error unroutable
      ∧ onProgressReceiverCompleted cache1 infoUnknown sr500 = .error unroutable :=
  ⟨rfl, rfl, rfl, rfl⟩

/-- C5: for every success callback on a registered task, whatever the
reported total, the stored uploaded and total counts both become the
normalized total, the single progress event reports currentBytes equal to
totalBytes at that value, the normalized total is a finite value of at least
one, it equals the reported total when that is finite and positive, and it is
pinned to one otherwise. -/
theorem c5_success_normalizes (cache : Registry) (id : String) (task : Task)
    (tb ub : JSNum) (sr : ServerResponse)
    (h : Registry.lookup cache id = some task) :
    (∃ v : Int, normalizeTotal tb = .finite v ∧ 1 ≤ v)
      ∧ (∀ v : Int, tb = .finite v → 0 < v → normalizeTotal tb = tb)
      ∧ ((∀ v : Int, tb = .finite v → v ≤ 0) → normalizeTotal tb = .finite 1)
      ∧ (onProgressReceiverCompleted cache
            { uploadId := id, totalBytes := tb, uploadedBytes := ub } sr).map
            (fun p => ((Registry.lookup p.1 id).map Task.upload,
                       (Registry.lookup p.1 id).map Task.totalUpload,
                       (semanticEvents p.2).head?))
          = .ok (some (normalizeTotal tb), some (normalizeTotal tb),
                 some (.progress (normalizeTotal tb) (normalizeTotal tb))) := by
  obtain ⟨h1, h2, h3⟩ := normalizeTotal_spec tb
  refine ⟨h1, h2, h3, ?_⟩
  simp [onProgressReceiverCompleted, Task.fromId, h, Except.map,
        Registry.lookup_insert, semanticEvents, Event.isSemantic,
        Task.setUpload, Task.setTotalUpload, Task.setStatus]

/-- C5 witness: the success normalization at the registered task task1 with a
reported total of zero, the scenario the spec singles out. -/
theorem c5_success_normalizes_witness :
    (∃ v : Int, normalizeTotal (.finite 0) = .finite v ∧ 1 ≤ v)
      ∧ (∀ v : Int, (.finite 0 : JSNum) = .finite v → 0 < v →
          normalizeTotal (.finite 0) = .finite 0)
      ∧ ((∀ v : Int, (.finite 0 : JSNum) = .finite v → v ≤ 0) →
          normalizeTotal (.finite 0) = .finite 1)
      ∧ (onProgressReceiverCompleted cache1
            { uploadId := taskId1, totalBytes := .finite 0, uploadedBytes := .finite 0 }
            sr500).map
            (fun p => ((Registry.lookup p.1 taskId1).map Task.upload,
                       (Registry.lookup p.1 taskId1).map Task.totalUpload,
                       (semanticEvents p.2).head?))
          = .ok (some (normalizeTotal (.finite 0)), some (normalizeTotal (.finite 0)),
                 some (.progress (normalizeTotal (.finite 0)) (normalizeTotal (.finite 0)))) :=
  c5_success_normalizes cache1 taskId1 task1 (.finite 0) (.finite 0) sr500 rfl

/-- C6: for every success callback on a registered task, the semantic events
emitted are exactly, in order, a progress event with the normalized counts, a
responded event with the response body string and the response code, and a
complete event with the response code and the raw response; the response code
is the obtainable HTTP code when there is one and the sentinel -1 otherwise. -/
theorem c6_success_event_order (cache : Registry) (id : String) (task : Task)
    (tb ub : JSNum) (sr : ServerResponse)
    (h : Registry.lookup cache id = some task) :
    (onProgressReceiverCompleted cache
          { uploadId := id, totalBytes := tb, uploadedBytes := ub } sr).map
        (fun p => semanticEvents p.2)
      = .ok [.progress (normalizeTotal tb) (normalizeTotal tb),
             .responded sr.bodyString (responseCodeOf sr),
             .complete (responseCodeOf sr) sr]
      ∧ (∀ c, sr.code = some c → responseCodeOf sr = c)
      ∧ (sr.code = none → responseCodeOf sr = -1) := by
  refine ⟨?_, ?_, ?_⟩
  · simp [onProgressReceiverCompleted, Task.fromId, h, Except.map, semanticEvents,
          Event.isSemantic, Task.setUpload, Task.setTotalUpload, Task.setStatus]
  · intro c hc
    simp [responseCodeOf, hc]
  · intro hc
    simp [responseCodeOf, hc]

/-- C6 witness: the success event sequence at the registered task task1 and
the concrete response with code 500. -/
theorem c6_success_event_order_witness :
    (onProgressReceiverCompleted cache1 info1 sr500).map (fun p => semanticEvents p.2)
      = .ok [.progress (normalizeTotal (.finite 10)) (normalizeTotal (.finite 10)),
             .responded sr500.bodyString (responseCodeOf sr500),
             .complete (responseCodeOf sr500) sr500]
      ∧ (∀ c, sr500.code = some c → responseCodeOf sr500 = c)
      ∧ (sr500.code = none → responseCodeOf sr500 = -1) :=
  c6_success_event_order cache1 taskId1 task1 (.finite 10) (.finite 5) sr500 rfl

/-- C7: for every call to the multipart factory whose parts list contains a
part without a name, an error is thrown synchronously to the caller, the
action trace is empty (no request reaches the transport engine) and the cache
is unchanged (no task is registered). -/
theorem c7_multipart_missing_name (st : GlobalState) (s : Session)
    (params : List Part) (options : Request) (appPath : String)
    (h : ∃ p ∈ params, p.name = none) :
    (∃ e, (Task.createMultiPart st s params options appPath).outcome
        = .error e)
      ∧ (Task.createMultiPart st s params options appPath).trace = []
      ∧ (Task.createMultiPart st s params options appPath).state.cache = st.cache := by
  obtain ⟨e, he⟩ := addParts_missing_name appPath (UploadRequest.new options.url) params h
  have hreq : getMultipartRequest (makeTaskId s.id (st.taskCount + 1)) options params appPath
      = .error e := by
    simp [getMultipartRequest, he]
  exact ⟨⟨e, by simp [Task.createMultiPart, hreq]⟩,
         by simp [Task.createMultiPart, hreq],
         by simp [Task.createMultiPart, hreq]⟩

/-- C7 witness: the multipart factory at a one-element parts list whose part
has no name. -/
theorem c7_multipart_missing_name_witness :
    (∃ e, (Task.createMultiPart initialState sessionS1 [partNoName] optionsNone
          "/data/app").outcome = .error e)
      ∧ (Task.createMultiPart initialState sessionS1 [partNoName] optionsNone
          "/data/app").trace = []
      ∧ (Task.createMultiPart initialState sessionS1 [partNoName] optionsNone
          "/data/app").state.cache = initialState.cache :=
  c7_multipart_missing_name initialState sessionS1 [partNoName] optionsNone "/data/app"
    ⟨partNoName, by simp, rfl⟩

/-- C8: the first upload created in a fresh process from session s1 returns a
task whose id is the session id followed by the counter value one in braces,
with status pending, zero uploaded bytes and total one. -/
theorem c8_first_upload (file : String) (options : Request) :
    (Task.create initialState sessionS1 file options).task.id = taskId1
      ∧ (Task.create initialState sessionS1 file options).task.status = "pending"
      ∧ (Task.create initialState sessionS1 file options).task.upload = .finite 0
      ∧ (Task.create initialState sessionS1 file options).task.totalUpload = .finite 1 :=
  ⟨rfl, rfl, rfl, rfl⟩

/-- C9: cancel leaves the global state and the task untouched, emits no
event, and only records an abort instruction for this task id; the status
change arrives later through the cancellation callback, which sets the status
to cancelled and emits the cancelled event. -/
theorem c9_cancel_frame (st : GlobalState) (t : Task) (cache : Registry)
    (id : String) (task : Task) (tb ub : JSNum)
    (h : Registry.lookup cache id = some task) :
    Task.cancel st t = (st, [.abort t.id], [])
      ∧ (onProgressReceiverCancelled cache
            { uploadId := id, totalBytes := tb, uploadedBytes := ub }).map
            (fun p => ((Registry.lookup p.1 id).map Task.status, semanticEvents p.2))
          = .ok (some "cancelled", [.cancelled]) := by
  refine ⟨rfl, ?_⟩
  simp [onProgressReceiverCancelled, Task.fromId, h, Except.map,
        Registry.lookup_insert, semanticEvents, Event.isSemantic, Task.setStatus]

/-- C9 witness: cancel and the cancellation callback at the concrete
registered task task1. -/
theorem c9_cancel_frame_witness :
    Task.cancel initialState task1 = (initialState, [.abort task1.id], [])
      ∧ (onProgressReceiverCancelled cache1 info1).map
            (fun p => ((Registry.lookup p.1 taskId1).map Task.status, semanticEvents p.2))
          = .ok (some "cancelled", [.cancelled]) :=
  c9_cancel_frame initialState task1 cache1 taskId1 task1 (.finite 10) (.finite 5) rfl

/-- C10: whenever the method option is absent or the empty string, the
request submitted to the transport engine carries the method GET, for the
single-file factory and for the multipart factory alike. -/
theorem c10_method_defaults_get (st : GlobalState) (s : Session) (file : String)
    (options : Request) (params : List Part) (appPath : String)
    (h : options.method = none ∨ options.method = some "") :
    submittedMethods (Task.create st s file options).trace = [some "GET"]
      ∧ (∀ m ∈ submittedMethods (Task.createMultiPart st s params options appPath).trace,
          m = some "GET") := by
  have hm : methodOrGet options.method = "GET" := by
    rcases h with h | h <;> simp [methodOrGet, h]
  constructor
  · simp [Task.create, submittedMethods, getBinaryRequest, setRequestOptions_method, hm]
  · intro m hmem
    cases hreq : getMultipartRequest (makeTaskId s.id (st.taskCount + 1)) options params appPath with
    | error e =>
        simp [Task.createMultiPart, hreq, submittedMethods] at hmem
    | ok r =>
        have hr : r.method = some "GET" := by
          cases ha : addParts appPath (UploadRequest.new options.url) params with
          | error e => simp [getMultipartRequest, ha] at hreq
          | ok r0 =>
              simp [getMultipartRequest, ha] at hreq
              rw [← hreq, setRequestOptions_method, hm]
        simp [Task.createMultiPart, hreq, submittedMethods] at hmem
        rw [hmem, hr]

/-- C10 witness: the default method at concrete inputs with an absent method
option. -/
theorem c10_method_defaults_get_witness :
    submittedMethods (Task.create initialState sessionS1 "file.bin" optionsNone).trace
        = [some "GET"]
      ∧ (∀ m ∈ submittedMethods
            (Task.createMultiPart initialState sessionS1 [] optionsNone "/data/app").trace,
          m = some "GET") :=
  c10_method_defaults_get initialState sessionS1 "file.bin" optionsNone [] "/data/app"
    (Or.inl rfl)

end BackgroundHttp
